import Mathlib

/-!
Verification of the adapter-dispatch and template-rendering core of the
`bob_the_engineer` scaffolding utility.

The development shallowly embeds the Python source:

* Python `dict`s (template contexts, settings documents) and the filesystem
  (a map from paths to file contents) are association lists with Python
  `dict` semantics: inserting an existing key replaces its value in place,
  inserting a fresh key appends at the end.
* Paths are lists of path segments (`List String`).
* External collaborators that the source treats as opaque (the YAML parser,
  the JSON codec, the Jinja substitution pass) are parameters of the
  embedded functions; theorems quantify over them.
* Fallible operations return `Except`, mirroring the exceptions the source
  raises.
-/

set_option autoImplicit false
set_option linter.unusedSectionVars false
set_option linter.unusedVariables false

namespace BobTheEngineer

/-! ## Python dict model -/

namespace PyDict

variable {K V : Type} [DecidableEq K]

/-- Lookup of a key in an association list, first match wins (a well-formed
Python dict has unique keys, so this is ordinary dict lookup). -/
def get? : List (K × V) → K → Option V
  | [], _ => none
  | (k', v') :: rest, k => if k' = k then some v' else get? rest k

/-- Python dict assignment `d[k] = v`: replace in place when the key is
present, append at the end when absent. -/
def insert : List (K × V) → K → V → List (K × V)
  | [], k, v => [(k, v)]
  | (k', v') :: rest, k, v =>
    if k' = k then (k, v) :: rest else (k', v') :: insert rest k v

/-- Python `d.update(other)`: assign every pair of `other` into `d`,
left to right. -/
def update (d : List (K × V)) : List (K × V) → List (K × V)
  | [] => d
  | (k, v) :: rest => update (insert d k v) rest

/-- The keys of a dict, in order. -/
def keys (d : List (K × V)) : List K := d.map Prod.fst

@[simp] theorem keys_nil : keys ([] : List (K × V)) = [] := rfl

@[simp] theorem keys_cons (k : K) (v : V) (d : List (K × V)) :
    keys ((k, v) :: d) = k :: keys d := rfl

theorem insert_cons_eq {k' k : K} (v' v : V) (tl : List (K × V)) (h : k' = k) :
    insert ((k', v') :: tl) k v = (k, v) :: tl := by
  simp [insert, h]

theorem insert_cons_ne {k' k : K} (v' v : V) (tl : List (K × V)) (h : ¬ k' = k) :
    insert ((k', v') :: tl) k v = (k', v') :: insert tl k v := by
  simp [insert, h]

theorem get?_insert_self (d : List (K × V)) (k : K) (v : V) :
    get? (insert d k v) k = some v := by
  induction d with
  | nil => simp [insert, get?]
  | cons hd tl ih =>
    obtain ⟨k', v'⟩ := hd
    by_cases h : k' = k
    · rw [insert_cons_eq _ _ _ h, get?, if_pos rfl]
    · rw [insert_cons_ne _ _ _ h, get?, if_neg h, ih]

theorem get?_insert_ne (d : List (K × V)) {q k : K} (v : V) (h : q ≠ k) :
    get? (insert d k v) q = get? d q := by
  have hkq : ¬ (k = q) := fun he => h he.symm
  induction d with
  | nil => simp [insert, get?, hkq]
  | cons hd tl ih =>
    obtain ⟨k', v'⟩ := hd
    by_cases hk : k' = k
    · rw [insert_cons_eq _ _ _ hk, get?, if_neg hkq, get?, if_neg (hk ▸ hkq)]
    · rw [insert_cons_ne _ _ _ hk]
      by_cases hq : k' = q
      · rw [get?, if_pos hq, get?, if_pos hq]
      · rw [get?, if_neg hq, get?, if_neg hq, ih]

theorem insert_insert_self (d : List (K × V)) (k : K) (v v' : V) :
    insert (insert d k v') k v = insert d k v := by
  induction d with
  | nil => simp [insert]
  | cons hd tl ih =>
    obtain ⟨k', w⟩ := hd
    by_cases h : k' = k
    · rw [insert_cons_eq _ _ _ h, insert_cons_eq _ _ _ rfl, insert_cons_eq _ _ _ h]
    · rw [insert_cons_ne _ _ _ h, insert_cons_ne _ _ _ h, insert_cons_ne _ _ _ h, ih]

theorem insert_of_get?_eq (d : List (K × V)) {k : K} {v : V}
    (h : get? d k = some v) : insert d k v = d := by
  induction d with
  | nil => simp [get?] at h
  | cons hd tl ih =>
    obtain ⟨k', v'⟩ := hd
    by_cases hk : k' = k
    · rw [get?, if_pos hk] at h
      injection h with h
      rw [insert_cons_eq _ _ _ hk, hk, h]
    · rw [get?, if_neg hk] at h
      rw [insert_cons_ne _ _ _ hk, ih h]

theorem mem_keys_insert {d : List (K × V)} {q k : K} {v : V}
    (h : q ∈ keys (insert d k v)) : q ∈ keys d ∨ q = k := by
  induction d with
  | nil =>
    right
    rw [show insert ([] : List (K × V)) k v = [(k, v)] from rfl, keys_cons] at h
    simpa using h
  | cons hd tl ih =>
    obtain ⟨k', v'⟩ := hd
    by_cases hk : k' = k
    · rw [insert_cons_eq _ _ _ hk, keys_cons, List.mem_cons] at h
      rcases h with h | h
      · exact Or.inr h
      · exact Or.inl (by rw [keys_cons]; exact List.mem_cons_of_mem _ h)
    · rw [insert_cons_ne _ _ _ hk, keys_cons, List.mem_cons] at h
      rcases h with h | h
      · exact Or.inl (by rw [keys_cons]; exact List.mem_cons.mpr (Or.inl h))
      · rcases ih h with h' | h'
        · exact Or.inl (by rw [keys_cons]; exact List.mem_cons_of_mem _ h')
        · exact Or.inr h'

theorem nodup_keys_insert {d : List (K × V)} (k : K) (v : V)
    (h : (keys d).Nodup) : (keys (insert d k v)).Nodup := by
  induction d with
  | nil => simp [insert]
  | cons hd tl ih =>
    obtain ⟨k', v'⟩ := hd
    rw [keys_cons, List.nodup_cons] at h
    by_cases hk : k' = k
    · rw [insert_cons_eq _ _ _ hk, keys_cons, List.nodup_cons]
      exact ⟨hk ▸ h.1, h.2⟩
    · rw [insert_cons_ne _ _ _ hk, keys_cons, List.nodup_cons]
      refine ⟨fun hmem => ?_, ih h.2⟩
      rcases mem_keys_insert hmem with h' | h'
      · exact h.1 h'
      · exact hk h'

theorem get?_eq_none_of_not_mem_keys {d : List (K × V)} {k : K}
    (h : k ∉ keys d) : get? d k = none := by
  induction d with
  | nil => simp [get?]
  | cons hd tl ih =>
    obtain ⟨k', v'⟩ := hd
    rw [keys_cons, List.mem_cons] at h
    push_neg at h
    have hk : ¬ (k' = k) := fun he => h.1 he.symm
    rw [get?, if_neg hk]
    exact ih h.2

theorem get?_update_of_none (e : List (K × V)) {k : K} :
    ∀ (d : List (K × V)), get? e k = none →
      get? (update d e) k = get? d k := by
  induction e with
  | nil => intro d _; simp [update]
  | cons hd tl ih =>
    intro d h
    obtain ⟨k', v'⟩ := hd
    by_cases hk : k' = k
    · rw [get?, if_pos hk] at h
      exact absurd h (by simp)
    · rw [get?, if_neg hk] at h
      show get? (update (insert d k' v') tl) k = get? d k
      rw [ih _ h, get?_insert_ne d v' (fun he => hk he.symm)]

theorem get?_update_of_some (e : List (K × V)) {k : K} {v : V} :
    ∀ (d : List (K × V)), (keys e).Nodup → get? e k = some v →
      get? (update d e) k = some v := by
  induction e with
  | nil => intro d _ h; simp [get?] at h
  | cons hd tl ih =>
    intro d hnd h
    obtain ⟨k', v'⟩ := hd
    rw [keys_cons, List.nodup_cons] at hnd
    by_cases hk : k' = k
    · rw [get?, if_pos hk] at h
      injection h with h
      have htl : get? tl k = none :=
        get?_eq_none_of_not_mem_keys (hk ▸ hnd.1)
      show get? (update (insert d k' v') tl) k = some v
      rw [get?_update_of_none tl _ htl, ← h, hk, get?_insert_self]
    · rw [get?, if_neg hk] at h
      show get? (update (insert d k' v') tl) k = some v
      exact ih _ hnd.2 h

theorem nodup_keys_update (e : List (K × V)) :
    ∀ {d : List (K × V)}, (keys d).Nodup → (keys (update d e)).Nodup := by
  induction e with
  | nil => intro d h; simpa [update] using h
  | cons hd tl ih =>
    intro d h
    obtain ⟨k, v⟩ := hd
    exact ih (nodup_keys_insert k v h)

theorem get?_update_nil (e : List (K × V)) {k : K} (hnd : (keys e).Nodup) :
    get? (update ([] : List (K × V)) e) k = get? e k := by
  rcases h : get? e k with _ | v
  · rw [get?_update_of_none e _ h]; rfl
  · rw [get?_update_of_some e _ hnd h]

end PyDict

/-! ## Values stored in settings documents and template contexts

The merge logic of the source never inspects values; the claims only
exercise scalar values, so the model provides the scalar cases. -/

inductive JValue where
  | bool : Bool → JValue
  | num : Int → JValue
  | str : String → JValue
deriving DecidableEq, Repr

/-- A settings document / template context: a Python dict keyed by strings. -/
abbrev SDict := List (String × JValue)

/-- The filesystem: a map from paths (segment lists) to file contents.
Writing a file overwrites its previous content; directories are implicit. -/
abbrev FS := List (List String × String)

/-! ## Python string helpers used by the source -/

/-- Python `s.replace("-", " ")` as used by the workflow generators:
the pattern is a single character, so this is a character map. -/
def pyReplaceDashSpace (s : String) : String :=
  String.mk (s.toList.map (fun c => if c = '-' then ' ' else c))

/-- Worker for `pyTitle`; the boolean records whether the previous character
was alphabetic. -/
def pyTitleAux : Bool → List Char → List Char
  | _, [] => []
  | prevAlpha, c :: cs =>
    (if c.isAlpha then (if prevAlpha then c.toLower else c.toUpper) else c)
      :: pyTitleAux c.isAlpha cs

/-- Python `s.title()`: uppercase every alphabetic character that follows a
non-alphabetic one, lowercase the remaining alphabetic characters. -/
def pyTitle (s : String) : String := String.mk (pyTitleAux false s.toList)

/-- Join a list of strings with a separator (as `sep.join(xs)` in Python). -/
def joinSep (sep : String) : List String → String
  | [] => ""
  | [x] => x
  | x :: xs => x ++ sep ++ joinSep sep xs

/-- Worker for `pySplitLines`, accumulating the current line in reverse. -/
def pySplitLinesAux : List Char → List Char → List String
  | [], acc => [String.mk acc.reverse]
  | c :: cs, acc =>
    if c = '\n' then String.mk acc.reverse :: pySplitLinesAux cs []
    else pySplitLinesAux cs (c :: acc)

/-- Python `s.split("\n")`: split on every newline; the empty string yields
one empty field. -/
def pySplitLines (s : String) : List String := pySplitLinesAux s.toList []

/-- Python `repr` of a list of strings, as interpolated into f-strings:
`['a', 'b']` with single quotes. -/
def pyReprStrList (xs : List String) : String :=
  "[" ++ joinSep ", " (xs.map (fun s => "\x27" ++ s ++ "\x27")) ++ "]"

/-! ## Adapter factory (`adapters/factory.py`)

`AdapterFactory._adapters` maps identifier strings to adapter classes; the
model keeps the class as a tag and `create_adapter` builds the adapter state
that `BaseAdapter.__init__` stores (`target_path`, `config or {}`). -/

inductive AdapterKind where
  | claude : AdapterKind
  | cursor : AdapterKind
deriving DecidableEq, Repr

/-- An instantiated adapter: the concrete class plus the state stored by
`BaseAdapter.__init__`. -/
structure Adapter where
  kind : AdapterKind
  target_path : List String
  config : SDict
deriving DecidableEq, Repr

/-- `ClaudeRulesManager.agent_name` / `CursorRulesManager.agent_name`. -/
def Adapter.agent_name (a : Adapter) : String :=
  match a.kind with
  | AdapterKind.claude => "claude-code"
  | AdapterKind.cursor => "cursor"

/-- `ClaudeRulesManager.output_format` / `CursorRulesManager.output_format`. -/
def Adapter.output_format (a : Adapter) : String :=
  match a.kind with
  | AdapterKind.claude => "single_file"
  | AdapterKind.cursor => "multiple_files"

/-- `AdapterFactory._adapters`: the static registry. -/
def adapterRegistry : List (String × AdapterKind) :=
  [("claude-code", AdapterKind.claude), ("cursor", AdapterKind.cursor)]

/-- `AdapterFactory.get_supported_agents`: `list(self._adapters.keys())`. -/
def getSupportedAgents : List String := PyDict.keys adapterRegistry

/-- `AdapterFactory.create_adapter`: look the identifier up in the registry;
unknown identifiers raise `ValueError` with the supported list interpolated
into the message. -/
def createAdapter (agent_type : String) (target_path : List String)
    (config : Option SDict) : Except String Adapter :=
  match PyDict.get? adapterRegistry agent_type with
  | none =>
    Except.error ("Unsupported agent type: " ++ agent_type ++ ". Supported: "
      ++ pyReprStrList getSupportedAgents)
  | some kind =>
    Except.ok { kind := kind, target_path := target_path,
                config := config.getD [] }

/-! ## Claude rules manager (`adapters/claude/rules_manager.py`) -/

/-- The `default_vars` literal of `ClaudeRulesManager.get_template_variables`. -/
def claudeDefaultVars : SDict :=
  [("agent_type", JValue.str "claude-code"),
   ("output_file", JValue.str "CLAUDE.md")]

/-- `ClaudeRulesManager.get_template_variables`: the defaults, updated with
`self.config` when that dict is non-empty (`if self.config:`). -/
def claude_get_template_variables (config : SDict) : SDict :=
  match config with
  | [] => claudeDefaultVars
  | _ => PyDict.update claudeDefaultVars config

/-- `ClaudeRulesManager.get_output_paths`. -/
def claude_get_output_paths (target_path : List String) : List (List String) :=
  [target_path ++ ["CLAUDE.md"]]

/-- `ClaudeRulesManager.write_rules`: write the rendered content to
`CLAUDE.md` under the target path. -/
def claude_write_rules (target_path : List String) (rendered_content : String)
    (fs : FS) : FS :=
  PyDict.insert fs (target_path ++ ["CLAUDE.md"]) rendered_content

/-- The `workflow_mapping` dict of `ClaudeRulesManager.install_workflows`. -/
def workflowMapping : List (String × String) :=
  [("spec-driven", "spec_driven_development"),
   ("tdd", "test_driven_development"),
   ("code-review", "code_review"),
   ("research", "research"),
   ("triage", "triage")]

/-- `ClaudeRulesManager._generate_workflow_command`. The `template_name`
argument is accepted but unused, exactly as in the source. -/
def claude_generate_workflow_command (workflow_name template_name : String) :
    String :=
  let title := pyTitle (pyReplaceDashSpace workflow_name)
  "---\nname: " ++ workflow_name
    ++ "\ndescription: " ++ title ++ " workflow for development"
    ++ "\ntools: [Read, Write, Edit, Bash, Task]"
    ++ "\nmodel: claude-sonnet-4-20250514"
    ++ "\nmax_tokens: 8192"
    ++ "\ntemperature: 0.3"
    ++ "\n---\n\n# " ++ title ++ " Workflow\n\n"
    ++ "## Overview\nThis is the " ++ workflow_name
    ++ " development workflow template.\n\n"
    ++ "## Usage\nThis workflow will guide you through the " ++ workflow_name
    ++ " development process.\n\n"
    ++ "## Steps\n1. Analyze requirements\n2. Plan implementation\n"
    ++ "3. Execute development\n4. Validate results\n\n"
    ++ "*Note: This is a generated template. Customize as needed.*\n"

/-- `ClaudeRulesManager.install_workflows`: for every requested name, write a
generated command file under `.claude/commands` and record its path. There is
no failure path. -/
def claude_install_workflows (target_path : List String)
    (workflows : List String) (fs : FS) : FS × List (List String) :=
  workflows.foldl
    (fun st w =>
      let command_file := target_path ++ [".claude", "commands", w ++ ".md"]
      let content :=
        claude_generate_workflow_command w ((PyDict.get? workflowMapping w).getD w)
      (PyDict.insert st.1 command_file content, st.2 ++ [command_file]))
    (fs, [])

/-- The settings file path used by `ClaudeRulesManager.configure_settings`. -/
def claudeSettingsPath (target_path : List String) : List String :=
  target_path ++ [".claude", "settings.json"]

/-! ## Cursor rules manager (`adapters/cursor/rules_manager.py`) -/

/-- The `default_vars` literal of `CursorRulesManager.get_template_variables`. -/
def cursorDefaultVars : SDict :=
  [("agent_type", JValue.str "cursor"),
   ("output_file", JValue.str ".cursor/rules/")]

/-- `CursorRulesManager.get_template_variables`. -/
def cursor_get_template_variables (config : SDict) : SDict :=
  match config with
  | [] => cursorDefaultVars
  | _ => PyDict.update cursorDefaultVars config

/-- `CursorRulesManager.get_output_paths`: the four categorized rule files
under `.cursor/rules`. -/
def cursor_get_output_paths (target_path : List String) : List (List String) :=
  let dir := target_path ++ [".cursor", "rules"]
  [dir ++ ["development-workflow.mdc"],
   dir ++ ["code-standards.mdc"],
   dir ++ ["project-structure.mdc"],
   dir ++ ["devops-practices.mdc"]]

/-- `CursorRulesManager.write_rules`: write the rendered content to
`.cursor/rules/coding-agent-rules.mdc`, then `_setup_deny_list_rule` copies
`templates/cursor-only/bash_deny_list.mdc` next to it when that packaged
template file exists. `denyListSrc` is the content of that template file, or
`none` when it is absent. -/
def cursor_write_rules (target_path : List String) (denyListSrc : Option String)
    (rendered_content : String) (fs : FS) : FS :=
  let dir := target_path ++ [".cursor", "rules"]
  let fs1 := PyDict.insert fs (dir ++ ["coding-agent-rules.mdc"]) rendered_content
  match denyListSrc with
  | some src => PyDict.insert fs1 (dir ++ ["bash_deny_list.mdc"]) src
  | none => fs1

/-- `CursorRulesManager._generate_workflow_command`. -/
def cursor_generate_workflow_command (workflow_name : String) : String :=
  let title := pyTitle (pyReplaceDashSpace workflow_name)
  "# " ++ title ++ " Workflow\n\n"
    ++ "## Overview\nThis is the " ++ workflow_name
    ++ " development workflow for Cursor.\n\n"
    ++ "## Usage\nUse this workflow to guide your " ++ workflow_name
    ++ " development process.\n\n"
    ++ "## Instructions\n1. Analyze requirements carefully\n"
    ++ "2. Plan your implementation approach\n"
    ++ "3. Execute development in phases\n"
    ++ "4. Validate results at each step\n\n"
    ++ "## Key Principles\n- Follow best practices for " ++ workflow_name
    ++ "\n- Maintain code quality throughout\n"
    ++ "- Document decisions and changes\n"
    ++ "- Test thoroughly before completion\n\n"
    ++ "*Note: This is a generated template. "
    ++ "Customize according to your specific needs.*\n"

/-- `CursorRulesManager.install_workflows`: for every requested name, write a
generated command file under `.cursor/commands` and record its path. There is
no failure path. -/
def cursor_install_workflows (target_path : List String)
    (workflows : List String) (fs : FS) : FS × List (List String) :=
  workflows.foldl
    (fun st w =>
      let command_file := target_path ++ [".cursor", "commands", w ++ ".md"]
      let content := cursor_generate_workflow_command w
      (PyDict.insert st.1 command_file content, st.2 ++ [command_file]))
    (fs, [])

/-- The settings file path used by `CursorRulesManager.configure_settings`. -/
def cursorSettingsPath (target_path : List String) : List String :=
  target_path ++ [".cursor", "settings.json"]

/-! ## `configure_settings` (identical logic in both managers)

The JSON codec is the opaque `json` module: `jsonParse` models `json.load`
(which raises on malformed input) and `jsonDump` models
`json.dump(..., indent=2)`. The function returns the filesystem after the
call together with the result: on a parse error the exception propagates
before the file is opened for writing, so the filesystem is returned
unchanged. -/

def configureSettings (jsonParse : String → Except String SDict)
    (jsonDump : SDict → String) (settings_file : List String)
    (settings : SDict) (fs : FS) : FS × Except String (List String) :=
  match PyDict.get? fs settings_file with
  | some content =>
    match jsonParse content with
    | Except.error e => (fs, Except.error e)
    | Except.ok existing_settings =>
      let merged := PyDict.update existing_settings settings
      (PyDict.insert fs settings_file (jsonDump merged),
       Except.ok settings_file)
  | none =>
    let merged := PyDict.update ([] : SDict) settings
    (PyDict.insert fs settings_file (jsonDump merged),
     Except.ok settings_file)

/-- `ClaudeRulesManager.configure_settings`. -/
def claude_configure_settings (jsonParse : String → Except String SDict)
    (jsonDump : SDict → String) (target_path : List String)
    (settings : SDict) (fs : FS) : FS × Except String (List String) :=
  configureSettings jsonParse jsonDump (claudeSettingsPath target_path) settings fs

/-- `CursorRulesManager.configure_settings`. -/
def cursor_configure_settings (jsonParse : String → Except String SDict)
    (jsonDump : SDict → String) (target_path : List String)
    (settings : SDict) (fs : FS) : FS × Except String (List String) :=
  configureSettings jsonParse jsonDump (cursorSettingsPath target_path) settings fs

/-! ## Template engine pass 2 (`adapters/template_engine.py`)

`render_configure_rules` (lines 96-118) and `render_subagent_template`
(lines 332-354) share this frontmatter check verbatim: split the rendered
output on newlines; when the first line is exactly `---`, look for the next
`---` line; when one exists, the text between the delimiters must parse as
YAML, and a parse failure is re-raised as the distinguishable
`Invalid YAML frontmatter` error. `yamlParse` models the opaque
`yaml.safe_load`. -/

/-- The `for i, line in enumerate(lines[1:], 1)` search for the closing
delimiter: index of the first `---` among the lines after the first. -/
def findDelimIdx : List String → Option Nat
  | [] => none
  | l :: ls => if l = "---" then some 0 else (findDelimIdx ls).map (· + 1)

/-- Pass 2 of the two-pass rendering: frontmatter validation on the already
substituted output. Returns the rendered text unchanged, or the
`Invalid YAML frontmatter` error. -/
def validateFrontmatter (yamlParse : String → Except String Unit)
    (rendered_content : String) : Except String String :=
  match pySplitLines rendered_content with
  | [] => Except.ok rendered_content
  | l0 :: rest =>
    if l0 = "---" then
      match findDelimIdx rest with
      | some k =>
        match yamlParse (joinSep "\n" (rest.take k)) with
        | Except.ok _ => Except.ok rendered_content
        | Except.error e =>
          Except.error ("Invalid YAML frontmatter after template rendering: " ++ e)
      | none => Except.ok rendered_content
    else Except.ok rendered_content

/-! ## Template context assembly (`render_configure_rules`, lines 75-89)

`render_configure_rules` loads the external agent configuration document,
creates the adapter with that document as its config, and builds
`template_context = {**agent_config, **adapter.get_template_variables(),
**(additional_context or {})}`. -/

/-- The Python dict literal `{**a, **b, **c}`: assign the three sources into
a fresh dict, left to right. -/
def pyDictLit3 (a b c : SDict) : SDict :=
  PyDict.update (PyDict.update (PyDict.update ([] : SDict) a) b) c

/-- The `template_context` built by `render_configure_rules` for the
claude-code adapter: the loaded agent configuration, then the adapter's
template variables (which are the static defaults updated with that same
configuration), then the caller-supplied additional context. -/
def renderConfigureRulesContext (agent_config additional_context : SDict) :
    SDict :=
  pyDictLit3 agent_config (claude_get_template_variables agent_config)
    additional_context

/-- Modelled from the spec: "assembled by merging, in order: static per-tool
defaults, a loaded external configuration document, and caller-supplied
overrides. Later sources override earlier ones on key collision." -/
def templateContextSpec (defaults agent_config additional_context : SDict) :
    SDict :=
  pyDictLit3 defaults agent_config additional_context

/-! ## Shared helper lemmas -/

theorem append_ne_of_ne {α : Type} (t : List α) {u v : List α} (h : u ≠ v) :
    t ++ u ≠ t ++ v := by
  intro he
  exact h (by simpa using he)

/-! ## Claim theorems -/

/-- Claim C5: for every identifier string not in the registered set,
`create_adapter` fails with the `Unsupported agent type` error, whose message
interpolates the list of currently registered identifiers (Python `repr` of
`['claude-code', 'cursor']`), and no handler is returned (the result is
`Except.error`, never `Except.ok`). -/
theorem c5_unregistered_identifier_rejected (agent_type : String)
    (target_path : List String) (config : Option SDict)
    (h : PyDict.get? adapterRegistry agent_type = none) :
    createAdapter agent_type target_path config =
      Except.error ("Unsupported agent type: " ++ agent_type
        ++ ". Supported: " ++ pyReprStrList getSupportedAgents) ∧
    pyReprStrList getSupportedAgents =
      "[\x27claude-code\x27, \x27cursor\x27]" ∧
    getSupportedAgents = ["claude-code", "cursor"] := by
  refine ⟨?_, by decide, rfl⟩
  simp only [createAdapter, h]

theorem c5_witness :
    PyDict.get? adapterRegistry "unknown-agent" = none ∧
    (createAdapter "unknown-agent" ["repo"] none =
      Except.error ("Unsupported agent type: " ++ "unknown-agent"
        ++ ". Supported: " ++ pyReprStrList getSupportedAgents) ∧
     pyReprStrList getSupportedAgents =
       "[\x27claude-code\x27, \x27cursor\x27]" ∧
     getSupportedAgents = ["claude-code", "cursor"]) :=
  ⟨by decide,
   c5_unregistered_identifier_rejected "unknown-agent" ["repo"] none (by decide)⟩

/-- Claim C6: dispatch on each registered identifier returns a handler whose
`agent_name` equals the identifier and whose `output_format` matches its
convention: `single_file` for claude-code, `multiple_files` for cursor; and
the registered identifiers are exactly claude-code and cursor. -/
theorem c6_registered_identifier_handlers (target_path : List String)
    (config : Option SDict) :
    getSupportedAgents = ["claude-code", "cursor"] ∧
    (∃ a : Adapter, createAdapter "claude-code" target_path config = Except.ok a ∧
      a.agent_name = "claude-code" ∧ a.output_format = "single_file") ∧
    (∃ a : Adapter, createAdapter "cursor" target_path config = Except.ok a ∧
      a.agent_name = "cursor" ∧ a.output_format = "multiple_files") :=
  ⟨rfl, ⟨_, rfl, rfl, rfl⟩, ⟨_, rfl, rfl, rfl⟩⟩

/-- Claim C1, evaluated at the failing input: for the cursor handler against
an empty target directory (deny-list template absent), `get_output_paths`
declares 4 paths, but `write_rules` writes none of them — it writes
`coding-agent-rules.mdc`, which is not in the declared list — contradicting
`get_output_paths`'s own docstring ("output paths where rules will be
written") and the spec's contract item 4. -/
theorem c1_cursor_write_rules_defies_declared_paths :
    (cursor_get_output_paths ["repo"]).length = 4 ∧
    ((cursor_get_output_paths ["repo"]).map
      (fun p => PyDict.get? (cursor_write_rules ["repo"] none "RULES" []) p)) =
      [none, none, none, none] ∧
    PyDict.get? (cursor_write_rules ["repo"] none "RULES" [])
      ["repo", ".cursor", "rules", "coding-agent-rules.mdc"] = some "RULES" ∧
    (cursor_get_output_paths ["repo"]).contains
      ["repo", ".cursor", "rules", "coding-agent-rules.mdc"] = false := by
  decide

/-- Claim C8: writing rules twice with content A then content B leaves
exactly content B at the target path (for claude this is full overwrite of
the whole filesystem state, proved as equality of states), and writing twice
with identical content is idempotent for both handlers (literal equality of
resulting filesystem states). -/
theorem c8_write_rules_overwrite_and_idempotent (target_path : List String)
    (fs : FS) (contentA contentB : String) (denyListSrc : Option String) :
    PyDict.get? (claude_write_rules target_path contentB
        (claude_write_rules target_path contentA fs))
      (target_path ++ ["CLAUDE.md"]) = some contentB ∧
    claude_write_rules target_path contentB
        (claude_write_rules target_path contentA fs) =
      claude_write_rules target_path contentB fs ∧
    claude_write_rules target_path contentA
        (claude_write_rules target_path contentA fs) =
      claude_write_rules target_path contentA fs ∧
    PyDict.get? (cursor_write_rules target_path denyListSrc contentB
        (cursor_write_rules target_path denyListSrc contentA fs))
      (target_path ++ [".cursor", "rules", "coding-agent-rules.mdc"]) =
      some contentB ∧
    cursor_write_rules target_path denyListSrc contentA
        (cursor_write_rules target_path denyListSrc contentA fs) =
      cursor_write_rules target_path denyListSrc contentA fs := by
  have hne : target_path ++ [".cursor", "rules", "coding-agent-rules.mdc"] ≠
      target_path ++ [".cursor", "rules", "bash_deny_list.mdc"] :=
    append_ne_of_ne target_path (by decide)
  refine ⟨?_, ?_, ?_, ?_, ?_⟩
  · rw [claude_write_rules, claude_write_rules, PyDict.get?_insert_self]
  · rw [claude_write_rules, claude_write_rules, claude_write_rules,
      PyDict.insert_insert_self]
  · rw [claude_write_rules, claude_write_rules, PyDict.insert_insert_self]
  · cases denyListSrc with
    | none =>
      simp only [cursor_write_rules, List.append_assoc, List.cons_append,
        List.nil_append]
      rw [PyDict.get?_insert_self]
    | some src =>
      simp only [cursor_write_rules, List.append_assoc, List.cons_append,
        List.nil_append]
      rw [PyDict.get?_insert_ne _ _ hne, PyDict.get?_insert_self]
  · cases denyListSrc with
    | none =>
      simp only [cursor_write_rules, List.append_assoc, List.cons_append,
        List.nil_append]
      rw [PyDict.insert_insert_self]
    | some src =>
      simp only [cursor_write_rules, List.append_assoc, List.cons_append,
        List.nil_append]
      have hmain : PyDict.get?
          (PyDict.insert (PyDict.insert fs
            (target_path ++ [".cursor", "rules", "coding-agent-rules.mdc"]) contentA)
            (target_path ++ [".cursor", "rules", "bash_deny_list.mdc"]) src)
          (target_path ++ [".cursor", "rules", "coding-agent-rules.mdc"]) =
          some contentA := by
        rw [PyDict.get?_insert_ne _ _ hne, PyDict.get?_insert_self]
      rw [PyDict.insert_of_get?_eq _ hmain, PyDict.insert_of_get?_eq _
        (PyDict.get?_insert_self _ _ _)]

/-- Claim C2: installing a single workflow whose name is not in the known
template set (for claude-code, the keys of `workflow_mapping`; the cursor
handler consults no template set at all) produces exactly one output file,
whose content is the generated placeholder document, and leaves every other
path untouched. Both `install_workflows` implementations are total functions
in the model because the source has no failure path: no exception is ever
raised. -/
theorem c2_unknown_workflow_placeholder (target_path : List String) (fs : FS)
    (w : String) (h : PyDict.get? workflowMapping w = none) :
    claude_install_workflows target_path [w] fs =
      (PyDict.insert fs (target_path ++ [".claude", "commands", w ++ ".md"])
        (claude_generate_workflow_command w w),
       [target_path ++ [".claude", "commands", w ++ ".md"]]) ∧
    PyDict.get? (claude_install_workflows target_path [w] fs).1
      (target_path ++ [".claude", "commands", w ++ ".md"]) =
      some (claude_generate_workflow_command w w) ∧
    (claude_install_workflows target_path [w] fs).2.length = 1 ∧
    cursor_install_workflows target_path [w] fs =
      (PyDict.insert fs (target_path ++ [".cursor", "commands", w ++ ".md"])
        (cursor_generate_workflow_command w),
       [target_path ++ [".cursor", "commands", w ++ ".md"]]) ∧
    PyDict.get? (cursor_install_workflows target_path [w] fs).1
      (target_path ++ [".cursor", "commands", w ++ ".md"]) =
      some (cursor_generate_workflow_command w) ∧
    (cursor_install_workflows target_path [w] fs).2.length = 1 := by
  have hclaude : claude_install_workflows target_path [w] fs =
      (PyDict.insert fs (target_path ++ [".claude", "commands", w ++ ".md"])
        (claude_generate_workflow_command w w),
       [target_path ++ [".claude", "commands", w ++ ".md"]]) := by
    simp only [claude_install_workflows, List.foldl, h, Option.getD,
      List.nil_append]
  have hcursor : cursor_install_workflows target_path [w] fs =
      (PyDict.insert fs (target_path ++ [".cursor", "commands", w ++ ".md"])
        (cursor_generate_workflow_command w),
       [target_path ++ [".cursor", "commands", w ++ ".md"]]) := by
    simp only [cursor_install_workflows, List.foldl, List.nil_append]
  refine ⟨hclaude, ?_, ?_, hcursor, ?_, ?_⟩
  · rw [hclaude, PyDict.get?_insert_self]
  · rw [hclaude]
    rfl
  · rw [hcursor, PyDict.get?_insert_self]
  · rw [hcursor]
    rfl

theorem c2_witness :
    PyDict.get? workflowMapping "my-custom-flow" = none ∧
    (claude_install_workflows ["repo"] ["my-custom-flow"] [] =
      (PyDict.insert [] (["repo"] ++ [".claude", "commands", "my-custom-flow" ++ ".md"])
        (claude_generate_workflow_command "my-custom-flow" "my-custom-flow"),
       [["repo"] ++ [".claude", "commands", "my-custom-flow" ++ ".md"]]) ∧
     PyDict.get? (claude_install_workflows ["repo"] ["my-custom-flow"] []).1
      (["repo"] ++ [".claude", "commands", "my-custom-flow" ++ ".md"]) =
      some (claude_generate_workflow_command "my-custom-flow" "my-custom-flow") ∧
     (claude_install_workflows ["repo"] ["my-custom-flow"] []).2.length = 1 ∧
     cursor_install_workflows ["repo"] ["my-custom-flow"] [] =
      (PyDict.insert [] (["repo"] ++ [".cursor", "commands", "my-custom-flow" ++ ".md"])
        (cursor_generate_workflow_command "my-custom-flow"),
       [["repo"] ++ [".cursor", "commands", "my-custom-flow" ++ ".md"]]) ∧
     PyDict.get? (cursor_install_workflows ["repo"] ["my-custom-flow"] []).1
      (["repo"] ++ [".cursor", "commands", "my-custom-flow" ++ ".md"]) =
      some (cursor_generate_workflow_command "my-custom-flow") ∧
     (cursor_install_workflows ["repo"] ["my-custom-flow"] []).2.length = 1) :=
  ⟨by decide,
   c2_unknown_workflow_placeholder ["repo"] [] "my-custom-flow" (by decide)⟩

/-- Claim C3: when the rendered output's first line is exactly `---` and a
closing `---` line exists, a YAML parse failure on the text between the
delimiters makes rendering fail with the distinguishable
`Invalid YAML frontmatter` error; and when the output does not begin with the
delimiter line, the check never triggers — rendering returns the substituted
text for every possible YAML parser. -/
theorem c3_frontmatter_validation (yamlParse : String → Except String Unit)
    (rendered : String) (e : String) (k : Nat) :
    ((pySplitLines rendered).head? = some "---" →
     findDelimIdx (pySplitLines rendered).tail = some k →
     yamlParse (joinSep "\n" ((pySplitLines rendered).tail.take k)) =
       Except.error e →
     validateFrontmatter yamlParse rendered =
       Except.error ("Invalid YAML frontmatter after template rendering: " ++ e)) ∧
    ((pySplitLines rendered).head? ≠ some "---" →
     validateFrontmatter yamlParse rendered = Except.ok rendered) := by
  constructor
  · intro h1 h2 h3
    cases hs : pySplitLines rendered with
    | nil => rw [hs] at h1; exact absurd h1 (by simp)
    | cons l0 rest =>
      rw [hs] at h1 h2 h3
      simp only [List.head?] at h1
      injection h1 with h1
      simp only [List.tail] at h2 h3
      simp only [validateFrontmatter, hs, h1, if_true, eq_self_iff_true, h2, h3]
  · intro h1
    cases hs : pySplitLines rendered with
    | nil => simp only [validateFrontmatter, hs]
    | cons l0 rest =>
      rw [hs] at h1
      simp only [List.head?] at h1
      have : ¬ (l0 = "---") := fun he => h1 (by rw [he])
      simp only [validateFrontmatter, hs, if_neg this]

theorem c3_witness :
    (pySplitLines "---\n: bad\n---\nbody").head? = some "---" ∧
    findDelimIdx (pySplitLines "---\n: bad\n---\nbody").tail = some 1 ∧
    (fun s => if s = ": bad" then Except.error "boom" else Except.ok ())
      (joinSep "\n" ((pySplitLines "---\n: bad\n---\nbody").tail.take 1)) =
      (Except.error "boom" : Except String Unit) ∧
    validateFrontmatter
      (fun s => if s = ": bad" then Except.error "boom" else Except.ok ())
      "---\n: bad\n---\nbody" =
      Except.error ("Invalid YAML frontmatter after template rendering: "
        ++ "boom") :=
  ⟨by decide, by decide, rfl,
   ((c3_frontmatter_validation
      (fun s => if s = ": bad" then Except.error "boom" else Except.ok ())
      "---\n: bad\n---\nbody" "boom" 1).1 (by decide) (by decide) rfl)⟩

/-- Claim C9: when the rendered output's first line is exactly `---` but no
later line equals `---` (unterminated metadata block), the validation is
skipped entirely: rendering returns the text without error for every
possible YAML parser, however malformed the text after the opening
delimiter. -/
theorem c9_unterminated_frontmatter_skipped
    (yamlParse : String → Except String Unit) (rendered : String)
    (h1 : (pySplitLines rendered).head? = some "---")
    (h2 : findDelimIdx (pySplitLines rendered).tail = none) :
    validateFrontmatter yamlParse rendered = Except.ok rendered := by
  cases hs : pySplitLines rendered with
  | nil => simp only [validateFrontmatter, hs]
  | cons l0 rest =>
    rw [hs] at h1 h2
    simp only [List.head?] at h1
    injection h1 with h1
    simp only [List.tail] at h2
    simp only [validateFrontmatter, hs, h1, if_true, eq_self_iff_true, h2]

theorem c9_witness :
    (pySplitLines "---\n: bad yaml \x7bunclosed").head? = some "---" ∧
    findDelimIdx (pySplitLines "---\n: bad yaml \x7bunclosed").tail = none ∧
    validateFrontmatter (fun _ => Except.error "always fails")
      "---\n: bad yaml \x7bunclosed" =
      Except.ok "---\n: bad yaml \x7bunclosed" :=
  ⟨by decide, by decide,
   c9_unterminated_frontmatter_skipped (fun _ => Except.error "always fails")
     "---\n: bad yaml \x7bunclosed" (by decide) (by decide)⟩

/-- Claim C10: when the on-disk settings file exists but its content fails to
parse as JSON, `configure_settings` propagates the parse error and, because
the exception is raised before the file is opened for writing, the
filesystem is returned unchanged — for both handlers. -/
theorem c10_malformed_settings_error_no_write
    (jsonParse : String → Except String SDict) (jsonDump : SDict → String)
    (target_path : List String) (fs : FS) (content e : String)
    (settings : SDict) :
    (PyDict.get? fs (claudeSettingsPath target_path) = some content →
     jsonParse content = Except.error e →
     claude_configure_settings jsonParse jsonDump target_path settings fs =
       (fs, Except.error e)) ∧
    (PyDict.get? fs (cursorSettingsPath target_path) = some content →
     jsonParse content = Except.error e →
     cursor_configure_settings jsonParse jsonDump target_path settings fs =
       (fs, Except.error e)) := by
  constructor
  · intro h1 h2
    simp only [claude_configure_settings, configureSettings, h1, h2]
  · intro h1 h2
    simp only [cursor_configure_settings, configureSettings, h1, h2]

theorem c10_witness :
    PyDict.get? [([".claude", "settings.json"], "not json"),
        ([".cursor", "settings.json"], "not json")]
      (claudeSettingsPath []) = some "not json" ∧
    (fun _ : String => (Except.error "Expecting value" : Except String SDict))
      "not json" = Except.error "Expecting value" ∧
    claude_configure_settings
      (fun _ => Except.error "Expecting value") (fun _ => "") [] []
      [([".claude", "settings.json"], "not json"),
       ([".cursor", "settings.json"], "not json")] =
      ([([".claude", "settings.json"], "not json"),
        ([".cursor", "settings.json"], "not json")],
       Except.error "Expecting value") :=
  ⟨by decide, rfl,
   (c10_malformed_settings_error_no_write
      (fun _ => Except.error "Expecting value") (fun _ => "") [] _
      "not json" "Expecting value" []).1 (by decide) rfl⟩

/-- Two consecutive `configure_settings` calls against a fresh settings
document: the second call reads back what the first wrote (the codec
round-trip on that document is a hypothesis about the opaque `json`
module), performs a shallow top-level merge, and writes the merged
document; each call returns the settings file path. -/
theorem configureSettings_two_step (jsonParse : String → Except String SDict)
    (jsonDump : SDict → String) (path : List String) (fs : FS)
    (hfresh : PyDict.get? fs path = none)
    (hrt : jsonParse (jsonDump [("x", JValue.num 1)]) =
      Except.ok [("x", JValue.num 1)]) :
    ∃ fs1 fs2 : FS,
      configureSettings jsonParse jsonDump path [("x", JValue.num 1)] fs =
        (fs1, Except.ok path) ∧
      configureSettings jsonParse jsonDump path [("y", JValue.num 2)] fs1 =
        (fs2, Except.ok path) ∧
      PyDict.get? fs2 path =
        some (jsonDump [("x", JValue.num 1), ("y", JValue.num 2)]) ∧
      PyDict.get? [("x", JValue.num 1), ("y", JValue.num 2)] "x" =
        some (JValue.num 1) ∧
      PyDict.get? [("x", JValue.num 1), ("y", JValue.num 2)] "y" =
        some (JValue.num 2) := by
  have hu2 : PyDict.update [("x", JValue.num 1)] [("y", JValue.num 2)] =
      [("x", JValue.num 1), ("y", JValue.num 2)] := by decide
  refine ⟨PyDict.insert fs path (jsonDump [("x", JValue.num 1)]),
    PyDict.insert (PyDict.insert fs path (jsonDump [("x", JValue.num 1)])) path
      (jsonDump [("x", JValue.num 1), ("y", JValue.num 2)]),
    ?_, ?_, ?_, by decide, by decide⟩
  · simp only [configureSettings, hfresh]
    rfl
  · have h1 : PyDict.get?
        (PyDict.insert fs path (jsonDump [("x", JValue.num 1)])) path =
        some (jsonDump [("x", JValue.num 1)]) := PyDict.get?_insert_self _ _ _
    simp only [configureSettings, h1, hrt, hu2]
  · exact PyDict.get?_insert_self _ _ _

/-- Claim C7: `configure_settings` performs a shallow top-level merge into
the existing on-disk settings document and returns the settings file path:
merging `x = 1` and then `y = 2` into the same (initially absent) settings
document leaves a final document containing both keys with their values —
the key `x`, absent from the second mapping, is left unchanged — for both
handlers. -/
theorem c7_configure_settings_shallow_merge
    (jsonParse : String → Except String SDict) (jsonDump : SDict → String)
    (target_path : List String) (fs : FS)
    (hfreshClaude : PyDict.get? fs (claudeSettingsPath target_path) = none)
    (hfreshCursor : PyDict.get? fs (cursorSettingsPath target_path) = none)
    (hrt : jsonParse (jsonDump [("x", JValue.num 1)]) =
      Except.ok [("x", JValue.num 1)]) :
    (∃ fs1 fs2 : FS,
      claude_configure_settings jsonParse jsonDump target_path
          [("x", JValue.num 1)] fs =
        (fs1, Except.ok (claudeSettingsPath target_path)) ∧
      claude_configure_settings jsonParse jsonDump target_path
          [("y", JValue.num 2)] fs1 =
        (fs2, Except.ok (claudeSettingsPath target_path)) ∧
      PyDict.get? fs2 (claudeSettingsPath target_path) =
        some (jsonDump [("x", JValue.num 1), ("y", JValue.num 2)]) ∧
      PyDict.get? [("x", JValue.num 1), ("y", JValue.num 2)] "x" =
        some (JValue.num 1) ∧
      PyDict.get? [("x", JValue.num 1), ("y", JValue.num 2)] "y" =
        some (JValue.num 2)) ∧
    (∃ fs1 fs2 : FS,
      cursor_configure_settings jsonParse jsonDump target_path
          [("x", JValue.num 1)] fs =
        (fs1, Except.ok (cursorSettingsPath target_path)) ∧
      cursor_configure_settings jsonParse jsonDump target_path
          [("y", JValue.num 2)] fs1 =
        (fs2, Except.ok (cursorSettingsPath target_path)) ∧
      PyDict.get? fs2 (cursorSettingsPath target_path) =
        some (jsonDump [("x", JValue.num 1), ("y", JValue.num 2)]) ∧
      PyDict.get? [("x", JValue.num 1), ("y", JValue.num 2)] "x" =
        some (JValue.num 1) ∧
      PyDict.get? [("x", JValue.num 1), ("y", JValue.num 2)] "y" =
        some (JValue.num 2)) :=
  ⟨configureSettings_two_step jsonParse jsonDump _ fs hfreshClaude hrt,
   configureSettings_two_step jsonParse jsonDump _ fs hfreshCursor hrt⟩

theorem c7_witness :
    PyDict.get? ([] : FS) (claudeSettingsPath ["repo"]) = none ∧
    PyDict.get? ([] : FS) (cursorSettingsPath ["repo"]) = none ∧
    (fun s => if s = "A" then Except.ok [("x", JValue.num 1)]
              else Except.error "bad")
      ((fun d => if d = [("x", JValue.num 1)] then "A" else "B")
        [("x", JValue.num 1)]) =
      (Except.ok [("x", JValue.num 1)] : Except String SDict) ∧
    ((∃ fs1 fs2 : FS,
      claude_configure_settings
          (fun s => if s = "A" then Except.ok [("x", JValue.num 1)]
                    else Except.error "bad")
          (fun d => if d = [("x", JValue.num 1)] then "A" else "B") ["repo"]
          [("x", JValue.num 1)] [] =
        (fs1, Except.ok (claudeSettingsPath ["repo"])) ∧
      claude_configure_settings
          (fun s => if s = "A" then Except.ok [("x", JValue.num 1)]
                    else Except.error "bad")
          (fun d => if d = [("x", JValue.num 1)] then "A" else "B") ["repo"]
          [("y", JValue.num 2)] fs1 =
        (fs2, Except.ok (claudeSettingsPath ["repo"])) ∧
      PyDict.get? fs2 (claudeSettingsPath ["repo"]) =
        some ((fun d => if d = [("x", JValue.num 1)] then "A" else "B")
          [("x", JValue.num 1), ("y", JValue.num 2)]) ∧
      PyDict.get? [("x", JValue.num 1), ("y", JValue.num 2)] "x" =
        some (JValue.num 1) ∧
      PyDict.get? [("x", JValue.num 1), ("y", JValue.num 2)] "y" =
        some (JValue.num 2)) ∧
    (∃ fs1 fs2 : FS,
      cursor_configure_settings
          (fun s => if s = "A" then Except.ok [("x", JValue.num 1)]
                    else Except.error "bad")
          (fun d => if d = [("x", JValue.num 1)] then "A" else "B") ["repo"]
          [("x", JValue.num 1)] [] =
        (fs1, Except.ok (cursorSettingsPath ["repo"])) ∧
      cursor_configure_settings
          (fun s => if s = "A" then Except.ok [("x", JValue.num 1)]
                    else Except.error "bad")
          (fun d => if d = [("x", JValue.num 1)] then "A" else "B") ["repo"]
          [("y", JValue.num 2)] fs1 =
        (fs2, Except.ok (cursorSettingsPath ["repo"])) ∧
      PyDict.get? fs2 (cursorSettingsPath ["repo"]) =
        some ((fun d => if d = [("x", JValue.num 1)] then "A" else "B")
          [("x", JValue.num 1), ("y", JValue.num 2)]) ∧
      PyDict.get? [("x", JValue.num 1), ("y", JValue.num 2)] "x" =
        some (JValue.num 1) ∧
      PyDict.get? [("x", JValue.num 1), ("y", JValue.num 2)] "y" =
        some (JValue.num 2))) :=
  ⟨rfl, rfl, rfl,
   c7_configure_settings_shallow_merge
     (fun s => if s = "A" then Except.ok [("x", JValue.num 1)]
               else Except.error "bad")
     (fun d => if d = [("x", JValue.num 1)] then "A" else "B") ["repo"] []
     rfl rfl rfl⟩

/-- Claim C4: the `template_context` assembled by `render_configure_rules`
(the dict literal spreading the loaded agent configuration, then the
adapter's template variables, then the caller-supplied additional context)
agrees, key for key, with the spec's merge order — static per-tool defaults,
then the external configuration document, then caller-supplied overrides,
later sources winning on collision — because the adapter's template
variables are themselves the defaults updated with that same configuration. -/
theorem c4_template_context_merge_order
    (agent_config additional_context : SDict) (k : String)
    (hA : (PyDict.keys agent_config).Nodup)
    (hAdd : (PyDict.keys additional_context).Nodup) :
    PyDict.get? (renderConfigureRulesContext agent_config additional_context) k
      = PyDict.get?
          (templateContextSpec claudeDefaultVars agent_config
            additional_context) k := by
  have hD : (PyDict.keys claudeDefaultVars).Nodup := by decide
  have hV : (PyDict.keys (claude_get_template_variables agent_config)).Nodup := by
    cases agent_config with
    | nil => exact hD
    | cons hd tl => exact PyDict.nodup_keys_update _ hD
  have hVs : ∀ v : JValue, PyDict.get? agent_config k = some v →
      PyDict.get? (claude_get_template_variables agent_config) k = some v := by
    intro v hv
    cases agent_config with
    | nil => exact absurd hv (by simp [PyDict.get?])
    | cons hd tl => exact PyDict.get?_update_of_some _ _ hA hv
  have hV0 : PyDict.get? agent_config k = none →
      PyDict.get? (claude_get_template_variables agent_config) k =
        PyDict.get? claudeDefaultVars k := by
    intro hv
    cases agent_config with
    | nil => rfl
    | cons hd tl => exact PyDict.get?_update_of_none _ _ hv
  show PyDict.get?
      (PyDict.update (PyDict.update (PyDict.update ([] : SDict) agent_config)
        (claude_get_template_variables agent_config)) additional_context) k =
    PyDict.get?
      (PyDict.update (PyDict.update (PyDict.update ([] : SDict) claudeDefaultVars)
        agent_config) additional_context) k
  rcases hAddk : PyDict.get? additional_context k with _ | v
  · have l1 := PyDict.get?_update_of_none additional_context
      (PyDict.update (PyDict.update ([] : SDict) agent_config)
        (claude_get_template_variables agent_config)) hAddk
    have r1 := PyDict.get?_update_of_none additional_context
      (PyDict.update (PyDict.update ([] : SDict) claudeDefaultVars)
        agent_config) hAddk
    rw [l1, r1]
    rcases hAk : PyDict.get? agent_config k with _ | v
    · have r2 := PyDict.get?_update_of_none agent_config
        (PyDict.update ([] : SDict) claudeDefaultVars) hAk
      have r3 := PyDict.get?_update_nil claudeDefaultVars hD (k := k)
      rcases hDk : PyDict.get? claudeDefaultVars k with _ | v
      · have l2 := PyDict.get?_update_of_none
          (claude_get_template_variables agent_config)
          (PyDict.update ([] : SDict) agent_config) ((hV0 hAk).trans hDk)
        have l3 := PyDict.get?_update_nil agent_config hA (k := k)
        rw [l2, l3, hAk, r2, r3, hDk]
      · have l2 := PyDict.get?_update_of_some
          (claude_get_template_variables agent_config)
          (PyDict.update ([] : SDict) agent_config) hV ((hV0 hAk).trans hDk)
        rw [l2, r2, r3, hDk]
    · have l2 := PyDict.get?_update_of_some
        (claude_get_template_variables agent_config)
        (PyDict.update ([] : SDict) agent_config) hV (hVs v hAk)
      have r2 := PyDict.get?_update_of_some agent_config
        (PyDict.update ([] : SDict) claudeDefaultVars) hA hAk
      rw [l2, r2]
  · have l1 := PyDict.get?_update_of_some additional_context
      (PyDict.update (PyDict.update ([] : SDict) agent_config)
        (claude_get_template_variables agent_config)) hAdd hAddk
    have r1 := PyDict.get?_update_of_some additional_context
      (PyDict.update (PyDict.update ([] : SDict) claudeDefaultVars)
        agent_config) hAdd hAddk
    rw [l1, r1]

theorem c4_witness :
    (PyDict.keys [("agent_type", JValue.str "override"),
      ("extra", JValue.num 7)]).Nodup ∧
    (PyDict.keys [("output_file", JValue.str "X")]).Nodup ∧
    PyDict.get? (renderConfigureRulesContext
        [("agent_type", JValue.str "override"), ("extra", JValue.num 7)]
        [("output_file", JValue.str "X")]) "agent_type" =
      PyDict.get? (templateContextSpec claudeDefaultVars
        [("agent_type", JValue.str "override"), ("extra", JValue.num 7)]
        [("output_file", JValue.str "X")]) "agent_type" :=
  ⟨by decide, by decide,
   c4_template_context_merge_order
     [("agent_type", JValue.str "override"), ("extra", JValue.num 7)]
     [("output_file", JValue.str "X")] "agent_type" (by decide) (by decide)⟩

end BobTheEngineer
